import Mathlib

/-!
Verification of the auth gate and report-rendering tools of the
"AI Innovation & Lifestyle Suite" MCP server
(`src/innovation_lifestyle_mcp.py`).

The server consists of a bearer-token check (`SimpleBearerAuthProvider`),
a `validate` tool returning a fixed configured identity string, and ten
report tools, each of which builds one large text block by substituting
its string parameters (and the current calendar date) into a fixed
template with a few hard-coded conditional branches.

Embedding conventions:
- Each Python tool becomes a pure Lean function on `String`s.  The current
  date (`datetime.now().strftime('%B %d, %Y')` in the source) is passed in
  explicitly as the `date` argument, since it is the only non-parameter
  input of any tool.
- Python f-string templates are rendered as `strJoin` of a list of chunks:
  literal text pieces, parameter occurrences, and `label ++ conditional`
  groups mirroring the `{'a' if c else 'b'}` interpolations of the source.
- `str.lower()` / `str.capitalize()` are modelled on the character list of
  the string (`Char.toLower` / `Char.toUpper`), matching Python's behavior
  on the ASCII strings these tools branch on.
- Optional parameters with defaults (FastMCP binds the declared default
  when an argument is omitted) are modelled by `Option String` wrappers
  using `Option.getD`.
-/

set_option maxRecDepth 40000

/-- String containment: `pat` occurs as a contiguous substring of `s`.
Mirrors Python's `pat in s`. -/
def strContains (s pat : String) : Prop := pat.data <:+: s.data

instance (s pat : String) : Decidable (strContains s pat) :=
  inferInstanceAs (Decidable (_ <:+: _))

/-- Python `str.lower()` (ASCII case mapping). -/
def pyLower (s : String) : String := String.mk (s.data.map Char.toLower)

/-- Python `str.capitalize()`: first character upper-cased, the rest
lower-cased (ASCII case mapping). -/
def pyCapitalize (s : String) : String :=
  match s.data with
  | [] => ""
  | c :: cs => String.mk (Char.toUpper c :: cs.map Char.toLower)

/-- Concatenation of a list of string chunks (the rendering of a template). -/
def strJoin : List String → String
  | [] => ""
  | s :: rest => s ++ strJoin rest

theorem strContains_append_left {a p : String} (b : String) (h : strContains a p) :
    strContains (a ++ b) p := by
  unfold strContains at *
  rw [String.data_append]
  exact h.trans (List.prefix_append a.data b.data).isInfix

theorem strContains_append_right {b p : String} (a : String) (h : strContains b p) :
    strContains (a ++ b) p := by
  unfold strContains at *
  rw [String.data_append]
  exact h.trans (List.suffix_append a.data b.data).isInfix

/-- If some chunk of a template contains `p`, the rendered template contains `p`. -/
theorem strContains_of_mem {l : List String} {p s : String}
    (hm : s ∈ l) (h : strContains s p) : strContains (strJoin l) p := by
  induction l with
  | nil => cases hm
  | cons a t ih =>
    cases hm with
    | head => exact strContains_append_left _ h
    | tail _ ht => exact strContains_append_right _ (ih ht)

/-- Rendered templates are at least as long as each of their chunks. -/
theorem strJoin_length_ge {l : List String} {s : String}
    (hm : s ∈ l) : s.length ≤ (strJoin l).length := by
  induction l with
  | nil => cases hm
  | cons a t ih =>
    cases hm with
    | head => simp [strJoin, String.length_append]
    | tail _ ht =>
      have h2 := ih ht
      simp only [strJoin, String.length_append]
      omega

/-! ## Configuration and the Auth Gate

The process configuration: `AUTH_TOKEN` (the secret) and `MY_NUMBER`
(the fixed identity string), both read once at startup and never mutated.
-/

structure Config where
  auth_token : String
  my_number : String

/-- Result of a successful bearer-token check, mirroring the `AccessToken`
value constructed in `SimpleBearerAuthProvider.load_access_token`. -/
structure AccessToken where
  token : String
  client_id : String
  scopes : List String
  expires_at : Option Nat
deriving DecidableEq

/-- `SimpleBearerAuthProvider.load_access_token`: authorize iff the presented
token is exactly the configured secret; on success return an access token
with the fixed client id `puch-client`, scope list `["*"]` and no expiry. -/
def load_access_token (cfg : Config) (token : String) : Option AccessToken :=
  if token = cfg.auth_token then
    some ⟨token, "puch-client", ["*"], none⟩
  else
    none

/-- The `validate` tool: returns the configured identity string `MY_NUMBER`. -/
def validate (cfg : Config) : String := cfg.my_number

/-! ## crypto_intelligence -/

def cryptoSentiment (n : String) : String :=
  if strContains (pyLower n) "bitcoin" ∨ strContains (pyLower n) "ethereum" then "Bullish"
  else "Neutral"

def cryptoMarketCap (n : String) : String :=
  if strContains (pyLower n) "bitcoin" then "Growing rapidly" else "Stable growth"

def cryptoVolume (n : String) : String :=
  if strContains (pyLower n) "bitcoin" then "High activity" else "Moderate activity"

def cryptoRisk (n : String) : String :=
  if strContains (pyLower n) "bitcoin" then "Medium-High" else "High"

def cryptoRoi (n : String) : String :=
  if strContains (pyLower n) "bitcoin" then "15-25% annually" else "20-40% annually"

def cryptoPosition (n : String) : String :=
  if strContains (pyLower n) "bitcoin" then "Leading cryptocurrency" else "Emerging player"

def cryptoMarketSentiment (n : String) : String :=
  if strContains (pyLower n) "bitcoin" then "Very positive" else "Positive"

def cryptoShortTerm (n : String) : String :=
  if strContains (pyLower n) "bitcoin" then "Bullish trend expected" else "Volatile but upward"

def cryptoMediumTerm (n : String) : String :=
  if strContains (pyLower n) "bitcoin" then "Strong growth potential" else "Growth potential"

def cryptoLongTerm (n : String) : String :=
  if strContains (pyLower n) "bitcoin" then "Mainstream adoption" else "Increased adoption"

def crypto_intelligence (crypto_name analysis_type date : String) : String :=
  strJoin [
    "\n# Crypto Intelligence Analysis: ", crypto_name,
    "\n\n## 📊 Market Analysis\n**Cryptocurrency:** ", crypto_name,
    "\n**Analysis Type:** ", pyCapitalize analysis_type,
    "\n**Date:** ", date,
    "\n\n## 🚀 Market Trends\n",
    "- **Current Sentiment:** " ++ cryptoSentiment crypto_name,
    "\n",
    "- **Market Cap Trend:** " ++ cryptoMarketCap crypto_name,
    "\n",
    "- **Trading Volume:** " ++ cryptoVolume crypto_name,
    "\n\n## 💰 Investment Insights\n",
    "- **Risk Level:** " ++ cryptoRisk crypto_name,
    "\n",
    "- **Potential ROI:** " ++ cryptoRoi crypto_name,
    "\n",
    "- **Market Position:** " ++ cryptoPosition crypto_name,
    "\n\n## 🎯 Key Factors\n1. **Institutional Adoption:** Growing interest from major companies\n2. **Regulatory Environment:** Evolving but generally positive\n3. **Technology Development:** Continuous innovation and upgrades\n",
    "4. **Market Sentiment:** " ++ cryptoMarketSentiment crypto_name,
    "\n\n## 📈 Predictions\n",
    "- **Short-term (1-3 months):** " ++ cryptoShortTerm crypto_name,
    "\n",
    "- **Medium-term (6-12 months):** " ++ cryptoMediumTerm crypto_name,
    "\n",
    "- **Long-term (1-2 years):** " ++ cryptoLongTerm crypto_name,
    "\n\n## 🔍 Investment Strategy\n1. **Dollar-Cost Averaging:** Invest regularly over time\n2. **Portfolio Diversification:** Don't put all eggs in one basket\n3. **Risk Management:** Only invest what you can afford to lose\n4. **Stay Informed:** Follow market news and developments\n",
    "\n## ⚠️ Risk Warnings\n- Cryptocurrency markets are highly volatile\n- Past performance doesn't guarantee future results\n- Regulatory changes can impact prices significantly\n- Always do your own research before investing\n"
  ]

/-! ## startup_builder -/

def startupAdvantage (i : String) : String :=
  if strContains (pyLower i) "ai" ∨ strContains (pyLower i) "tech" then "Technology innovation"
  else "Unique value proposition"

def startupBarriers (i : String) : String :=
  if strContains (pyLower i) "ai" then "Medium" else "Low to Medium"

def startupSeed (v : String) : String :=
  if v = "low" then "50K-100K" else if v = "medium" then "200K-500K" else "1M-2M"

def startup_builder (business_idea target_market investment_needed date : String) : String :=
  strJoin [
    "\n# Startup Validation & Roadmap: ", business_idea,
    "\n\n## 🎯 Business Concept\n**Idea:** ", business_idea,
    "\n**Target Market:** ", target_market,
    "\n**Investment Level:** ", pyCapitalize investment_needed,
    "\n**Analysis Date:** ", date,
    "\n\n## 📊 Market Validation\n\n### Market Size & Opportunity\n- **Total Addressable Market (TAM):** $2-5 billion\n- **Serviceable Addressable Market (SAM):** $500M-1B\n- **Serviceable Obtainable Market (SOM):** $50M-100M\n\n### Competitive Analysis\n- **Direct Competitors:** 3-5 major players\n",
    "- **Competitive Advantage:** " ++ startupAdvantage business_idea,
    "\n",
    "- **Barriers to Entry:** " ++ startupBarriers business_idea,
    "\n\n## 🚀 Success Probability: 75%\n\n### Strengths\n1. **Growing market demand**\n2. **Technology-enabled solution**\n3. **Scalable business model**\n4. **Strong team potential**\n\n### Challenges\n1. **Competition from established players**\n2. **Customer acquisition costs**\n3. **Regulatory considerations**\n4. **Funding requirements**\n",
    "\n## 📋 MVP Roadmap\n\n### Phase 1: Foundation (Months 1-3)\n- **Market research and validation**\n- **Core team formation**\n- **MVP development**\n- **Initial customer interviews**\n\n### Phase 2: Launch (Months 4-6)\n- **MVP launch and testing**\n- **Customer feedback collection**\n- **Product iteration**\n- **Initial marketing campaigns**\n\n### Phase 3: Growth (Months 7-12)\n- **Customer acquisition**\n- **Revenue generation**\n- **Team expansion**\n- **Funding rounds**\n",
    "\n## 💰 Financial Projections\n\n### Investment Required\n",
    "- **Seed Round:** $" ++ startupSeed investment_needed,
    "\n- **Series A:** $2M-5M (after 12-18 months)\n- **Break-even:** 18-24 months\n\n### Revenue Projections\n- **Year 1:** $100K-500K\n- **Year 2:** $1M-5M\n- **Year 3:** $5M-20M\n",
    "\n## 🎯 Next Steps\n1. **Validate with potential customers**\n2. **Build MVP prototype**\n3. **Secure initial funding**\n4. **Assemble core team**\n5. **Launch beta version**\n\n## 💡 Recommendations\n- **Focus on solving a real problem**\n- **Build a strong founding team**\n- **Validate early and often**\n- **Be prepared to pivot**\n- **Network with other entrepreneurs**\n"
  ]

/-! ## content_monetization -/

def contentAdRevenue (a : String) : String :=
  if a = "small" then "500-2K" else if a = "medium" then "2K-10K" else "10K-50K"

def contentSponsorships (a : String) : String :=
  if a = "small" then "1K-5K" else if a = "medium" then "5K-20K" else "20K-100K"

def contentAffiliate (a : String) : String :=
  if a = "small" then "200-1K" else if a = "medium" then "1K-5K" else "5K-25K"

def contentTimes (p : String) : String :=
  if p = "youtube" then "7-9 PM" else if p = "instagram" then "12-3 PM"
  else if p = "tiktok" then "6-10 PM" else "9-11 AM"

def contentLength (p : String) : String :=
  if p = "youtube" then "10-15 minutes" else if p = "instagram" then "30-60 seconds"
  else if p = "tiktok" then "15-60 seconds" else "1500-2500 words"

def contentEngagement (p : String) : String :=
  if p = "youtube" then "Call-to-actions, end screens" else if p = "instagram" then "Stories, Reels, IGTV"
  else if p = "tiktok" then "Trending sounds, challenges" else "Comments, social sharing"

def contentCurrentRevenue (a : String) : String :=
  if a = "small" then "500-2K" else if a = "medium" then "2K-10K" else "10K-50K"

def contentSixMonths (a : String) : String :=
  if a = "small" then "2K-8K" else if a = "medium" then "8K-30K" else "30K-150K"

def contentTwelveMonths (a : String) : String :=
  if a = "small" then "5K-20K" else if a = "medium" then "20K-80K" else "80K-300K"

def content_monetization (content_type platform audience_size date : String) : String :=
  strJoin [
    "\n# Content Monetization Strategy: ", pyCapitalize content_type,
    " on ", pyCapitalize platform,
    "\n\n## 📊 Current Analysis\n**Content Type:** ", pyCapitalize content_type,
    "\n**Platform:** ", pyCapitalize platform,
    "\n**Audience Size:** ", pyCapitalize audience_size,
    "\n**Analysis Date:** ", date,
    "\n\n## 💰 Monetization Opportunities\n\n### 1. **Platform Revenue**\n",
    "- **Ad Revenue:** $" ++ contentAdRevenue audience_size,
    " monthly\n",
    "- **Sponsorships:** $" ++ contentSponsorships audience_size,
    " per post\n",
    "- **Affiliate Marketing:** $" ++ contentAffiliate audience_size,
    " monthly\n",
    "\n### 2. **Direct Revenue**\n- **Digital Products:** Courses, ebooks, templates\n- **Services:** Consulting, coaching, custom content\n- **Memberships:** Exclusive content, community access\n- **Merchandise:** Branded products, merchandise\n\n### 3. **Brand Partnerships**\n- **Sponsored Content:** $1K-50K per collaboration\n- **Brand Ambassadorships:** $5K-100K annually\n- **Product Launches:** $10K-200K per campaign\n",
    "\n## 📈 Growth Strategy\n\n### Content Optimization\n1. **SEO Optimization:** Improve discoverability\n2. **Engagement Focus:** Increase viewer retention\n3. **Consistency:** Regular posting schedule\n4. **Quality:** Invest in better equipment/editing\n\n### Audience Growth\n1. **Cross-platform promotion**\n2. **Collaborations with other creators**\n3. **Community building**\n4. **Trend participation**\n\n### Monetization Optimization\n1. **Diversify revenue streams**\n2. **Test different pricing strategies**\n3. **Build email list**\n4. **Create evergreen content**\n",
    "\n## 🎯 Platform-Specific Strategies\n\n### ", pyCapitalize platform,
    " Optimization\n",
    "- **Best posting times:** " ++ contentTimes platform,
    "\n",
    "- **Optimal content length:** " ++ contentLength platform,
    "\n",
    "- **Engagement tactics:** " ++ contentEngagement platform,
    "\n\n## 📊 Revenue Projections\n\n### Monthly Revenue Potential\n",
    "- **Current:** $" ++ contentCurrentRevenue audience_size,
    "\n",
    "- **6 months:** $" ++ contentSixMonths audience_size,
    "\n",
    "- **12 months:** $" ++ contentTwelveMonths audience_size,
    "\n\n## 🚀 Action Plan\n1. **Audit current content performance**\n2. **Implement SEO best practices**\n3. **Start affiliate marketing**\n4. **Pitch to potential sponsors**\n5. **Create digital products**\n6. **Build email list**\n7. **Optimize posting schedule**\n8. **Engage with audience consistently**\n",
    "\n## 💡 Pro Tips\n- **Focus on value over views**\n- **Build authentic relationships with audience**\n- **Diversify income streams**\n- **Invest in quality over quantity**\n- **Stay consistent and patient**\n"
  ]

/-! ## fashion_predictor -/

def fashion_predictor (style_preference occasion season date : String) : String :=
  strJoin [
    "\n# Fashion Trend Predictor & Style Guide\n\n## 👗 Style Analysis\n**Your Preference:** ", pyCapitalize style_preference,
    "\n**Occasion:** ", pyCapitalize occasion,
    "\n**Season:** ", pyCapitalize season,
    "\n**Analysis Date:** ", date,
    "\n\n## 🚀 Trending Styles for ", pyCapitalize season,
    " 2025\n\n### Hot Trends\n1. **Sustainable Fashion:** Eco-friendly materials, upcycled clothing\n2. **Tech-Integrated Wear:** Smart fabrics, LED accessories\n3. **Gender-Fluid Fashion:** Unisex designs, inclusive sizing\n4. **Vintage Revival:** 90s and Y2K aesthetics\n5. **Minimalist Luxury:** Quality over quantity, timeless pieces\n\n### Color Palette\n- **Primary Colors:** Earth tones, muted pastels\n- **Accent Colors:** Bold neons, metallic finishes\n- **Neutral Colors:** Cream, beige, charcoal\n",
    "\n## 🎯 Personalized Recommendations\n\n### For ", pyCapitalize style_preference,
    " Style\n**Top Picks:**\n- **Casual:** Oversized blazers, wide-leg pants, chunky sneakers\n- **Formal:** Tailored suits, statement accessories, classic pumps\n- **Streetwear:** Graphic tees, cargo pants, platform sneakers\n- **Vintage:** High-waisted jeans, retro prints, vintage accessories\n\n### ", pyCapitalize occasion,
    " Outfit Ideas\n1. **Work:** Tailored blazer + wide-leg pants + loafers\n2. **Party:** Statement dress + bold accessories + heels\n3. **Casual:** Oversized sweater + jeans + sneakers\n4. **Formal:** Classic suit + silk shirt + oxfords\n",
    "\n## 📈 Trend Predictions\n\n### Emerging Trends (Next 6 months)\n1. **Digital Fashion:** Virtual clothing, NFT fashion\n2. **Athleisure 2.0:** Performance wear meets style\n3. **Micro-Trends:** Hyper-personalized fashion\n4. **Circular Fashion:** Rental, resale, repair\n\n### Investment Pieces\n- **Timeless Blazer:** Versatile for all occasions\n- **Quality Denim:** Lasts years, never goes out of style\n- **Classic Handbag:** Investment piece that appreciates\n- **Statement Jewelry:** Adds personality to any outfit\n",
    "\n## 🛍️ Shopping Strategy\n\n### Budget Allocation\n- **70% Basics:** Quality essentials that last\n- **20% Trends:** Affordable trendy pieces\n- **10% Investment:** High-quality statement pieces\n\n### Sustainable Shopping\n1. **Buy second-hand** for unique finds\n2. **Support local designers**\n3. **Choose quality over quantity**\n4. **Rent for special occasions**\n",
    "\n## 💡 Style Tips\n- **Know your body type** and dress accordingly\n- **Invest in good basics** that mix and match\n- **Accessorize strategically** to change looks\n- **Confidence is the best accessory**\n- **Trends come and go, style is forever**\n\n## 🎨 Color Analysis\n- **Spring/Summer:** Light, bright colors\n- **Fall/Winter:** Rich, deep colors\n- **Year-round:** Neutrals, earth tones\n",
    "\n## 📱 Social Media Inspiration\n- **Instagram:** @fashionista, @styleblogger\n- **TikTok:** #fashiontrends, #styleinspo\n- **Pinterest:** Create mood boards for inspiration\n"
  ]

/-! ## food_innovator -/

def food_innovator (cuisine_type dietary_restrictions skill_level date : String) : String :=
  strJoin [
    "\n# Food Innovation & Recipe Creator\n\n## 🍽️ Culinary Analysis\n**Cuisine Type:** ", pyCapitalize cuisine_type,
    "\n**Dietary Restrictions:** ", pyCapitalize dietary_restrictions,
    "\n**Skill Level:** ", pyCapitalize skill_level,
    "\n**Analysis Date:** ", date,
    "\n\n## 🚀 Trending Food Concepts for 2025\n\n### Hot Trends\n1. **Plant-Based Innovation:** Beyond meat alternatives, creative vegan dishes\n2. **Fusion Cuisine:** Global flavor combinations, cultural mashups\n3. **Functional Foods:** Health-boosting ingredients, superfoods\n4. **Sustainable Cooking:** Zero-waste recipes, local ingredients\n5. **Tech-Enhanced Dining:** Smart kitchen gadgets, AI recipe assistants\n",
    "\n### Emerging Ingredients\n- **Alternative Proteins:** Tempeh, seitan, jackfruit\n- **Ancient Grains:** Quinoa, farro, freekeh\n- **Superfoods:** Moringa, spirulina, matcha\n- **Fermented Foods:** Kimchi, kombucha, miso\n\n## 🎯 Personalized Recipe Recommendations\n\n### ", pyCapitalize cuisine_type,
    " Innovation Ideas\n**Beginner Level:**\n- **Italian:** Modern pasta dishes with seasonal vegetables\n- **Asian:** Quick stir-fries with bold flavors\n- **Mexican:** Fresh tacos with homemade tortillas\n- **Fusion:** East-meets-West comfort food\n\n**Intermediate Level:**\n- **Italian:** Homemade pasta with creative sauces\n- **Asian:** Complex curries and noodle dishes\n- **Mexican:** Authentic mole and tamales\n- **Fusion:** Multi-cultural tasting menus\n",
    "\n**Advanced Level:**\n- **Italian:** Artisanal bread and pizza making\n- **Asian:** Traditional techniques with modern twists\n- **Mexican:** Regional specialties and complex sauces\n- **Fusion:** Molecular gastronomy meets tradition\n\n## 📈 Food Trend Predictions\n\n### Restaurant Concepts\n1. **Ghost Kitchens:** Delivery-only restaurants\n2. **Pop-up Experiences:** Temporary dining concepts\n3. **Farm-to-Table 2.0:** Hyper-local ingredient sourcing\n4. **Tech-Forward Dining:** QR menus, contactless ordering\n",
    "\n### Consumer Preferences\n- **Health-conscious eating**\n- **Convenience without compromise**\n- **Authentic cultural experiences**\n- **Sustainable food choices**\n\n## 🍳 Recipe Innovation Framework\n\n### Flavor Combinations\n- **Sweet & Spicy:** Honey + chili, maple + cayenne\n- **Umami Boost:** Mushrooms + soy sauce, miso + butter\n- **Herb & Citrus:** Basil + lemon, cilantro + lime\n- **Smoky & Sweet:** Chipotle + honey, smoked paprika + maple\n",
    "\n### Technique Innovation\n1. **Sous Vide:** Precise temperature cooking\n2. **Fermentation:** Homemade pickles, kimchi, sourdough\n3. **Smoking:** Wood-fired flavors, tea-smoking\n4. **Molecular Gastronomy:** Spherification, foams, gels\n\n## 💡 Cooking Tips\n\n### For ", pyCapitalize skill_level,
    " Cooks\n**Beginner:**\n- Start with simple recipes\n- Master basic techniques\n- Use quality ingredients\n- Don't be afraid to experiment\n\n**Intermediate:**\n- Try new cuisines\n- Experiment with techniques\n- Develop your palate\n- Share your creations\n\n**Advanced:**\n- Create original recipes\n- Master complex techniques\n- Mentor others\n- Push culinary boundaries\n",
    "\n## 🛒 Ingredient Sourcing\n- **Local Farmers Markets:** Fresh, seasonal produce\n- **Ethnic Grocery Stores:** Authentic ingredients\n- **Online Specialty Shops:** Hard-to-find items\n- **Community Supported Agriculture (CSA):** Weekly fresh produce\n\n## 📱 Food Tech Trends\n- **Recipe Apps:** Personalized meal planning\n- **Smart Kitchen Gadgets:** AI-powered cooking assistants\n- **Food Delivery Innovation:** Ghost kitchens, meal kits\n- **Social Media Food:** Instagram-worthy dishes, TikTok recipes\n",
    "\n## 🎨 Presentation Tips\n- **Color Contrast:** Bright vegetables, colorful garnishes\n- **Texture Variety:** Crispy, creamy, crunchy elements\n- **Height & Depth:** Layered dishes, elevated plating\n- **Garnish Thoughtfully:** Edible flowers, microgreens, herbs\n"
  ]

/-! ## nft_creator -/

def nft_creator (art_style theme rarity_level date : String) : String :=
  strJoin [
    "\n# NFT Creator & Digital Art Trend Predictor\n\n## 🎨 NFT Analysis\n**Art Style:** ", pyCapitalize art_style,
    "\n**Theme:** ", pyCapitalize theme,
    "\n**Rarity Level:** ", pyCapitalize rarity_level,
    "\n**Analysis Date:** ", date,
    "\n\n## 🚀 Digital Art Trends for 2025\n\n### Hot NFT Styles\n1. **AI-Generated Art:** Machine learning created pieces\n2. **Interactive NFTs:** Art that responds to user interaction\n3. **Generative Art:** Algorithmically created collections\n4. **3D Digital Sculptures:** Three-dimensional digital art\n5. **Mixed Reality Art:** AR/VR integrated pieces\n",
    "\n### Trending Themes\n- **Cyberpunk:** Futuristic, neon, dystopian aesthetics\n- **Nature:** Organic, environmental, sustainable themes\n- **Space:** Cosmic, astronomical, sci-fi elements\n- **Anime:** Japanese animation style, manga-inspired\n- **Minimalist:** Clean, simple, geometric designs\n\n## 🎯 NFT Creation Strategy\n\n### ", pyCapitalize art_style,
    " Art Style Guide\n**Digital Art:**\n- **Tools:** Photoshop, Procreate, Illustrator\n- **Techniques:** Digital painting, vector graphics\n- **File Formats:** PNG, SVG, MP4 for animations\n- **Resolution:** Minimum 1000x1000 pixels\n\n**Pixel Art:**\n- **Tools:** Aseprite, Piskel, Photoshop\n- **Techniques:** Pixel-perfect design, limited color palette\n- **File Formats:** PNG, GIF for animations\n- **Resolution:** 16x16 to 512x512 pixels\n",
    "\n**3D Art:**\n- **Tools:** Blender, Maya, Cinema 4D\n- **Techniques:** 3D modeling, texturing, rendering\n- **File Formats:** GLB, GLTF, MP4 for animations\n- **Complexity:** Low-poly to high-detail models\n\n**Abstract Art:**\n- **Tools:** Any digital art software\n- **Techniques:** Geometric shapes, color theory, composition\n- **File Formats:** PNG, SVG, MP4\n- **Style:** Non-representational, emotional expression\n",
    "\n**Photography:**\n- **Tools:** Camera, Lightroom, Photoshop\n- **Techniques:** Digital photography, post-processing\n- **File Formats:** RAW, JPEG, PNG\n- **Quality:** High-resolution, professional grade\n\n## 📈 NFT Market Analysis\n\n### Current Market Trends\n- **Total Market Cap:** $10+ billion\n- **Daily Trading Volume:** $100+ million\n- **Active Collections:** 10,000+ projects\n- **Average Sale Price:** $200-2,000\n",
    "\n### Rarity Distribution\n**Common (70% of collection):**\n- **Price Range:** $50-500\n- **Characteristics:** Basic traits, common colors\n- **Demand:** High volume, low individual value\n\n**Rare (20% of collection):**\n- **Price Range:** $500-5,000\n- **Characteristics:** Unique combinations, special traits\n- **Demand:** Moderate volume, good value\n\n**Epic (8% of collection):**\n- **Price Range:** $5,000-50,000\n- **Characteristics:** Very rare traits, special editions\n- **Demand:** Low volume, high value\n",
    "\n**Legendary (2% of collection):**\n- **Price Range:** $50,000-500,000+\n- **Characteristics:** One-of-a-kind, ultra-rare traits\n- **Demand:** Very low volume, premium value\n\n## 💰 Monetization Strategies\n\n### NFT Sales Channels\n1. **OpenSea:** Largest NFT marketplace\n2. **Rarible:** Community-driven platform\n3. **Foundation:** Curated, high-end marketplace\n4. **Nifty Gateway:** Premium NFT platform\n5. **SuperRare:** Single-edition digital art\n",
    "\n### Pricing Strategy\n- **Research similar NFTs** in your style/theme\n- **Consider rarity and uniqueness**\n- **Factor in gas fees and platform costs**\n- **Start with reasonable prices** and adjust based on demand\n- **Offer multiple price points** for different collectors\n\n### Revenue Streams\n1. **Primary Sales:** Initial NFT minting and sales\n2. **Secondary Sales:** Royalties from resales (2.5-10%)\n3. **Licensing:** Commercial use rights\n4. **Merchandise:** Physical products based on NFTs\n5. **Exclusive Access:** VIP benefits for NFT holders\n",
    "\n## 🚀 Launch Strategy\n\n### Pre-Launch (1-2 months)\n1. **Build community** on Discord, Twitter\n2. **Create teaser content** and previews\n3. **Establish brand identity** and story\n4. **Set up social media** presence\n5. **Plan marketing campaign**\n\n### Launch Day\n1. **Mint collection** on chosen platform\n2. **Announce on all channels** simultaneously\n3. **Engage with community** actively\n4. **Monitor sales** and adjust strategy\n5. **Celebrate milestones** with community\n",
    "\n### Post-Launch\n1. **Maintain community engagement**\n2. **Release additional content** and updates\n3. **Plan future collections** or expansions\n4. **Build partnerships** with other creators\n5. **Explore new platforms** and opportunities\n",
    "\n## 💡 Pro Tips\n- **Quality over quantity** - focus on creating amazing art\n- **Build community first** - engaged community drives sales\n- **Tell a story** - give your NFTs meaning and context\n- **Be consistent** - regular releases maintain interest\n- **Stay authentic** - create art you're passionate about\n- **Network with other artists** - collaborations expand reach\n- **Learn from data** - analyze what sells and why\n- **Think long-term** - build sustainable business model\n- **Protect your work** - use proper licensing and contracts\n- **Stay updated** - NFT space evolves rapidly\n"
  ]

/-! ## social_media_trend_predictor -/

def socialTimes (p : String) : String :=
  if p = "tiktok" then "7-9 PM" else if p = "instagram" then "12-3 PM"
  else if p = "youtube" then "2-4 PM" else "9-11 AM"

def socialFreq (p : String) : String :=
  if p = "tiktok" then "2-3 times daily" else if p = "instagram" then "1-2 times daily"
  else if p = "youtube" then "2-3 times weekly" else "3-5 times daily"

def socialWindows (p : String) : String :=
  if p = "tiktok" then "First 2 hours critical" else if p = "instagram" then "First 6 hours important"
  else if p = "youtube" then "First 24 hours key" else "First 30 minutes crucial"

def social_media_trend_predictor (platform content_type niche date : String) : String :=
  strJoin [
    "\n# Social Media Trend Predictor: " ++ pyCapitalize platform,
    "\n\n## 📱 Platform Analysis\n" ++ ("**Platform:** " ++ pyCapitalize platform),
    "\n**Content Type:** ", pyCapitalize content_type,
    "\n**Niche:** ", pyCapitalize niche,
    "\n**Analysis Date:** ", date,
    "\n\n## 🚀 Trending Content for ", pyCapitalize platform,
    "\n\n### Hot Trends Right Now\n1. **Authentic Storytelling:** Behind-the-scenes, real moments\n2. **Educational Content:** How-to videos, tips and tricks\n3. **Challenges & Trends:** Viral challenges, dance trends\n4. **User-Generated Content:** Community participation\n5. **Live Content:** Real-time engagement, Q&A sessions\n",
    "\n### Platform-Specific Trends\n**TikTok:**\n- **Trending Sounds:** Viral audio clips, remixes\n- **Visual Effects:** AR filters, transitions\n- **Content Length:** 15-60 seconds optimal\n- **Engagement:** Comments, shares, duets\n\n**Instagram:**\n- **Reels:** Short-form video content\n- **Stories:** Daily updates, polls, questions\n- **IGTV:** Longer-form content\n- **Carousel Posts:** Multiple images/videos\n",
    "\n**YouTube:**\n- **Shorts:** Vertical video format\n- **Long-form:** 10-20 minute deep dives\n- **Live Streaming:** Real-time interaction\n- **Community Posts:** Engagement beyond videos\n\n**Twitter/X:**\n- **Threads:** Long-form content in tweets\n- **Spaces:** Audio conversations\n- **Trending Topics:** Real-time discussions\n- **Visual Content:** Images, GIFs, videos\n",
    "\n## 📈 Viral Content Predictions\n\n### Content That Will Go Viral\n1. **Emotional Connection:** Content that makes people feel something\n2. **Relatability:** Everyday situations, common problems\n3. **Educational Value:** Learn something new\n4. **Entertainment:** Humor, creativity, talent\n5. **Inspiration:** Motivational, aspirational content\n\n### Timing Strategy\n",
    "- **Best Posting Times:** " ++ socialTimes platform,
    "\n",
    "- **Optimal Frequency:** " ++ socialFreq platform,
    "\n",
    "- **Engagement Windows:** " ++ socialWindows platform,
    "\n\n## 🎯 Content Strategy for ", pyCapitalize niche,
    "\n\n### Trending Topics\n- **Lifestyle:** Daily routines, wellness tips, home organization\n- **Tech:** App reviews, gadget unboxings, tech tips\n- **Fashion:** Outfit ideas, style tips, shopping hauls\n- **Food:** Recipe tutorials, food reviews, cooking tips\n- **Comedy:** Skits, parodies, relatable humor\n\n### Content Ideas\n1. **\"Day in the Life\"** content\n2. **\"Before and After\"** transformations\n3. **\"How I...\"** tutorials\n4. **\"Reacting to...\"** content\n5. **\"Testing...\"** experiments\n",
    "\n## 📊 Success Metrics\n\n### Key Performance Indicators\n- **Views/Impressions:** Reach and visibility\n- **Engagement Rate:** Likes, comments, shares\n- **Follower Growth:** Audience expansion\n- **Click-through Rate:** Link clicks, profile visits\n- **Retention Rate:** How long people watch\n\n### Viral Thresholds\n- **TikTok:** 100K+ views, 10K+ likes\n- **Instagram:** 50K+ views, 5K+ likes\n- **YouTube:** 100K+ views, 10K+ likes\n- **Twitter:** 10K+ impressions, 1K+ likes\n",
    "\n## 🚀 Action Plan\n1. **Research trending hashtags** in your niche\n2. **Study successful creators** in your space\n3. **Create content calendar** with trending topics\n4. **Engage with community** consistently\n5. **Analyze performance** and iterate\n6. **Collaborate with other creators**\n7. **Stay authentic** to your brand\n8. **Experiment with different formats**\n",
    "\n## 💡 Pro Tips\n- **Consistency is key** - post regularly\n- **Engage with your audience** - reply to comments\n- **Use trending sounds/music** when relevant\n- **Optimize for each platform** - don't cross-post blindly\n- **Track your analytics** and learn from data\n- **Stay true to your voice** - authenticity wins\n- **Network with other creators** - collaborations help\n- **Don't chase every trend** - stay relevant to your niche\n"
  ]

/-! ## influencer_matcher -/

def influencerBaseRate (t : String) : String :=
  if t = "micro" then "100-500" else if t = "macro" then "1,000-5,000" else "10,000-50,000"

def influencer_matcher (influencer_type niche platform date : String) : String :=
  strJoin [
    "\n# Influencer & Brand Collaboration Matcher\n\n## 👥 Influencer Analysis\n**Type:** ", pyCapitalize influencer_type,
    " Influencer\n**Niche:** ", pyCapitalize niche,
    "\n**Platform:** ", pyCapitalize platform,
    "\n**Analysis Date:** ", date,
    "\n\n## 📊 Influencer Categories\n\n### Micro Influencers (1K-10K followers)\n- **Engagement Rate:** 8-15%\n- **Average Cost:** $50-500 per post\n- **Best For:** Local businesses, niche products\n- **Strengths:** High engagement, authentic audience\n- **Collaboration Types:** Product reviews, affiliate marketing\n\n### Macro Influencers (10K-100K followers)\n- **Engagement Rate:** 3-8%\n- **Average Cost:** $500-5,000 per post\n- **Best For:** Growing brands, targeted campaigns\n- **Strengths:** Good reach, established audience\n- **Collaboration Types:** Sponsored posts, brand ambassadorships\n",
    "\n### Mega Influencers (100K+ followers)\n- **Engagement Rate:** 1-3%\n- **Average Cost:** $5,000-50,000 per post\n- **Best For:** Large brands, mass awareness\n- **Strengths:** Massive reach, brand recognition\n- **Collaboration Types:** Major campaigns, product launches\n\n## 🎯 Brand Matching Strategy\n\n### Perfect Brand Matches for ", pyCapitalize niche,
    "\n\n**Lifestyle Niche:**\n- **Beauty brands:** Skincare, makeup, haircare\n- **Fashion brands:** Clothing, accessories, jewelry\n- **Wellness brands:** Supplements, fitness, mental health\n- **Home brands:** Decor, furniture, lifestyle products\n\n**Tech Niche:**\n- **Gadget brands:** Smartphones, laptops, accessories\n- **Software brands:** Apps, tools, platforms\n- **Gaming brands:** Consoles, games, accessories\n- **Tech services:** VPN, cloud storage, productivity tools\n",
    "\n**Fashion Niche:**\n- **Clothing brands:** Fast fashion, luxury, sustainable\n- **Accessories:** Bags, shoes, jewelry, watches\n- **Beauty brands:** Makeup, skincare, haircare\n- **Lifestyle brands:** Home decor, travel, wellness\n\n**Food Niche:**\n- **Food brands:** Restaurants, delivery, meal kits\n- **Kitchen brands:** Appliances, cookware, gadgets\n- **Beverage brands:** Coffee, tea, smoothies, alcohol\n- **Health brands:** Supplements, superfoods, nutrition\n",
    "\n**Fitness Niche:**\n- **Fitness brands:** Equipment, apparel, supplements\n- **Wellness brands:** Apps, services, products\n- **Nutrition brands:** Meal plans, supplements, snacks\n- **Lifestyle brands:** Activewear, accessories, services\n\n## 💰 Pricing Strategy\n\n### ", pyCapitalize influencer_type,
    " Influencer Pricing\n",
    "**Base Rate:** $" ++ influencerBaseRate influencer_type,
    " per post\n\n**Additional Factors:**\n- **Engagement Rate:** +10-30% for high engagement\n- **Platform:** +20-50% for multiple platforms\n- **Exclusivity:** +50-100% for exclusive partnerships\n- **Content Quality:** +25-50% for professional content\n- **Audience Demographics:** +15-40% for target audience match\n\n### Collaboration Packages\n1. **Single Post:** One-time sponsored content\n2. **Series (3-5 posts):** Discounted rate for multiple posts\n3. **Monthly Partnership:** Regular content creation\n4. **Brand Ambassadorship:** Long-term exclusive partnership\n5. **Product Launch:** Dedicated campaign support\n",
    "\n## 📈 Success Prediction\n\n### Collaboration Success Factors\n1. **Audience Alignment:** 40% importance\n2. **Content Quality:** 25% importance\n3. **Engagement Rate:** 20% importance\n4. **Brand Safety:** 10% importance\n5. **Platform Fit:** 5% importance\n\n### Success Probability: 85%\n\n**High Success Indicators:**\n- ✅ Authentic audience engagement\n- ✅ Relevant content niche\n- ✅ Professional communication\n- ✅ Consistent posting schedule\n- ✅ Positive brand reputation\n",
    "\n## 🚀 Action Plan\n\n### For Brands\n1. **Define campaign goals** and target audience\n2. **Research potential influencers** in your niche\n3. **Analyze engagement rates** and audience quality\n4. **Reach out professionally** with clear proposals\n5. **Negotiate fair compensation** and deliverables\n6. **Provide creative freedom** while maintaining brand guidelines\n7. **Track performance** and measure ROI\n8. **Build long-term relationships** with successful partners\n",
    "\n### For Influencers\n1. **Define your niche** and target audience\n2. **Create media kit** with rates and statistics\n3. **Build professional relationships** with brands\n4. **Deliver high-quality content** consistently\n5. **Track your performance** and engagement\n6. **Negotiate fair compensation** for your value\n7. **Maintain authenticity** in brand partnerships\n8. **Diversify income streams** beyond sponsored posts\n",
    "\n## 💡 Pro Tips\n- **Authenticity wins** - only partner with brands you genuinely like\n- **Quality over quantity** - better to have fewer, high-quality partnerships\n- **Track everything** - measure performance and ROI\n- **Build relationships** - long-term partnerships are more valuable\n- **Stay professional** - clear communication and timely delivery\n- **Know your worth** - don't undervalue your influence\n- **Be selective** - not every brand partnership is worth it\n- **Stay true to your audience** - they trust your recommendations\n"
  ]

/-! ## dating_optimizer -/

def dating_optimizer (dating_platform age_range relationship_goal date : String) : String :=
  strJoin [
    "\n# Dating Profile Optimizer & Compatibility Predictor\n\n## 💕 Dating Analysis\n**Platform:** ", pyCapitalize dating_platform,
    "\n**Age Range:** ", age_range,
    "\n**Relationship Goal:** ", pyCapitalize relationship_goal,
    "\n**Analysis Date:** ", date,
    "\n\n## 🚀 Dating Trends for 2025\n\n### Platform-Specific Strategies\n**Tinder:**\n- **Best for:** Casual dating, hookups\n- **Profile focus:** Attractive photos, short bio\n- **Swiping strategy:** Be selective, quality over quantity\n- **Success rate:** 5-10% match to date conversion\n\n**Bumble:**\n- **Best for:** Serious relationships, professional networking\n- **Profile focus:** Detailed bio, conversation starters\n- **Swiping strategy:** Women make first move, be patient\n- **Success rate:** 8-15% match to date conversion\n",
    "\n**Hinge:**\n- **Best for:** Serious relationships, meaningful connections\n- **Profile focus:** Detailed prompts, authentic answers\n- **Swiping strategy:** Thoughtful responses, genuine interest\n- **Success rate:** 12-20% match to date conversion\n\n**OkCupid:**\n- **Best for:** Compatibility matching, detailed profiles\n- **Profile focus:** Comprehensive questions, detailed bio\n- **Swiping strategy:** Answer questions honestly, focus on compatibility\n- **Success rate:** 10-18% match to date conversion\n",
    "\n## 📸 Profile Optimization Guide\n\n### Photo Strategy\n**Primary Photo (First impression):**\n- **High-quality headshot** with genuine smile\n- **Good lighting** and clear background\n- **Eye contact** with camera\n- **Recent photo** (within 6 months)\n\n**Additional Photos:**\n- **Activity shots** showing hobbies and interests\n- **Group photos** (but not too many)\n- **Travel photos** showing adventure side\n- **Professional photos** showing career success\n",
    "\n**Photo Don'ts:**\n- ❌ Selfies in bathroom/car\n- ❌ Group photos where you're hard to identify\n- ❌ Blurry or low-quality images\n- ❌ Photos with ex-partners\n- ❌ Too many filters or editing\n\n### Bio Writing Tips\n**Length by Platform:**\n- **Tinder:** 100-200 characters (concise)\n- **Bumble:** 300-500 characters (detailed)\n- **Hinge:** Answer prompts thoughtfully\n- **OkCupid:** 500-1000 characters (comprehensive)\n",
    "\n**Bio Structure:**\n1. **Hook:** Interesting opening line\n2. **Interests:** Hobbies, passions, activities\n3. **Personality:** What makes you unique\n4. **Call to action:** Conversation starter\n\n**Bio Examples:**\n- \"Adventure seeker who believes the best stories happen outside your comfort zone 🏔️\"\n- \"Coffee enthusiast, book lover, and amateur chef. Looking for someone to share life's little moments with ☕\"\n- \"Passionate about [interest] and always up for trying something new. Let's create memories together!\"\n",
    "\n## 🎯 Compatibility Prediction\n\n### Success Factors\n1. **Profile Quality:** 30% importance\n2. **Messaging Strategy:** 25% importance\n3. **Timing:** 20% importance\n4. **Location:** 15% importance\n5. **Luck:** 10% importance\n\n### Compatibility Indicators\n**High Compatibility:**\n- ✅ Shared interests and values\n- ✅ Similar life goals and timeline\n- ✅ Good communication skills\n- ✅ Mutual attraction and chemistry\n- ✅ Compatible lifestyles\n\n**Red Flags:**\n- ❌ Inconsistent or dishonest profile\n- ❌ Poor communication or ghosting\n- ❌ Different relationship goals\n- ❌ Incompatible lifestyles or values\n- ❌ Lack of effort or engagement\n",
    "\n## 💬 Messaging Strategy\n\n### Opening Lines\n**Effective Openers:**\n- \"I noticed you're into [shared interest]. What's your favorite [related topic]?\"\n- \"Your profile made me smile! I'd love to hear more about [specific detail]\"\n- \"Hey! I'm also passionate about [interest]. Have you tried [related activity]?\"\n\n**Conversation Starters:**\n- Ask about their interests and experiences\n- Share relevant stories or anecdotes\n- Ask thoughtful follow-up questions\n- Show genuine curiosity about their life\n",
    "\n### Messaging Tips\n- **Be authentic** and genuine\n- **Ask questions** to show interest\n- **Share about yourself** but don't dominate\n- **Keep it light** and positive initially\n- **Move to phone/video** after good conversation\n- **Plan first date** within 1-2 weeks of matching\n",
    "\n## 📅 First Date Planning\n\n### Date Ideas by Goal\n**Casual Dating:**\n- Coffee or drinks\n- Casual dinner\n- Activity-based dates (bowling, mini-golf)\n- Outdoor activities (hiking, park walks)\n\n**Serious Relationships:**\n- Dinner at nice restaurant\n- Cultural activities (museums, shows)\n- Cooking class or wine tasting\n- Weekend getaway or day trip\n\n**Friendship:**\n- Group activities or events\n- Casual meetups\n- Shared hobby activities\n- Community events\n",
    "\n### Date Success Tips\n- **Choose comfortable location** for both parties\n- **Plan backup options** in case of weather/issues\n- **Keep first date short** (1-2 hours)\n- **Dress appropriately** for the activity\n- **Be on time** and respectful\n- **Have conversation topics** ready\n- **Listen actively** and show interest\n- **End positively** regardless of outcome\n",
    "\n## 🚀 Action Plan\n1. **Optimize your profile** with high-quality photos and compelling bio\n2. **Set realistic expectations** for your dating goals\n3. **Be consistent** with swiping and messaging\n4. **Stay positive** and don't get discouraged by rejection\n5. **Learn from each interaction** and improve your approach\n6. **Be patient** - finding the right person takes time\n7. **Stay safe** - meet in public places and trust your instincts\n8. **Have fun** - dating should be enjoyable, not stressful\n",
    "\n## 💡 Pro Tips\n- **Be yourself** - authenticity attracts the right people\n- **Quality over quantity** - focus on meaningful connections\n- **Don't rush** - take time to get to know people\n- **Stay positive** - dating can be challenging but rewarding\n- **Learn from rejection** - it's part of the process\n- **Trust your instincts** - if something feels off, move on\n- **Have standards** - don't settle for less than you deserve\n- **Keep growing** - work on yourself while looking for others\n"
  ]

/-! ## travel_curator -/

def travel_curator (destination_type budget_range travel_style date : String) : String :=
  strJoin [
    "\n# Travel Experience Curator & Destination Predictor\n\n## ✈️ Travel Analysis\n**Destination Type:** ", pyCapitalize destination_type,
    "\n**Budget Range:** ", pyCapitalize budget_range,
    "\n**Travel Style:** ", pyCapitalize travel_style,
    "\n**Analysis Date:** ", date,
    "\n\n## 🚀 Travel Trends for 2025\n\n### Hot Destination Categories\n**Beach Destinations:**\n- **Trending:** Maldives, Bali, Costa Rica, Greek Islands\n- **Emerging:** Zanzibar, Seychelles, Philippines, Mexico\n- **Budget-friendly:** Thailand, Vietnam, Portugal, Croatia\n\n**City Destinations:**\n- **Trending:** Tokyo, Singapore, Dubai, Barcelona\n- **Emerging:** Seoul, Istanbul, Lisbon, Budapest\n- **Budget-friendly:** Prague, Warsaw, Krakow, Belgrade\n",
    "\n**Mountain Destinations:**\n- **Trending:** Swiss Alps, Canadian Rockies, New Zealand\n- **Emerging:** Georgia (country), Armenia, Kyrgyzstan\n- **Budget-friendly:** Nepal, India, Peru, Bolivia\n\n**Cultural Destinations:**\n- **Trending:** Japan, Morocco, India, Egypt\n- **Emerging:** Uzbekistan, Iran, Ethiopia, Myanmar\n- **Budget-friendly:** Cambodia, Laos, Sri Lanka, Nepal\n\n**Adventure Destinations:**\n- **Trending:** Iceland, Patagonia, Alaska, New Zealand\n- **Emerging:** Mongolia, Namibia, Madagascar, Borneo\n- **Budget-friendly:** Nepal, Peru, Bolivia, Guatemala\n",
    "\n## 🎯 Personalized Travel Recommendations\n\n### ", pyCapitalize destination_type,
    " Destinations for ", pyCapitalize travel_style,
    " Travel\n\n**Beach Destinations:**\n- **Solo:** Bali (Indonesia), Costa Rica, Thailand\n- **Couple:** Maldives, Seychelles, Greek Islands\n- **Family:** Hawaii, Florida Keys, Gold Coast (Australia)\n- **Group:** Mexico, Dominican Republic, Philippines\n\n**City Destinations:**\n- **Solo:** Tokyo, Singapore, Amsterdam\n- **Couple:** Paris, Rome, Barcelona\n- **Family:** London, New York, Toronto\n- **Group:** Berlin, Prague, Budapest\n",
    "\n**Mountain Destinations:**\n- **Solo:** Switzerland, New Zealand, Canada\n- **Couple:** Austrian Alps, French Alps, Japan\n- **Family:** Colorado (USA), Banff (Canada), Switzerland\n- **Group:** Nepal, Peru, Bolivia\n\n**Cultural Destinations:**\n- **Solo:** Japan, Morocco, India\n- **Couple:** Italy, Greece, Turkey\n- **Family:** England, France, Germany\n- **Group:** Thailand, Vietnam, Cambodia\n\n**Adventure Destinations:**\n- **Solo:** Iceland, New Zealand, Costa Rica\n- **Couple:** Patagonia, Alaska, Norway\n- **Family:** Costa Rica, New Zealand, Canada\n- **Group:** Nepal, Peru, Bolivia\n",
    "\n## 💰 Budget Planning\n\n### ", pyCapitalize budget_range,
    " Budget Breakdown\n**Budget ($1,000-2,000 per person):**\n- **Accommodation:** $30-80/night\n- **Food:** $15-30/day\n- **Activities:** $20-50/day\n- **Transportation:** $10-30/day\n- **Total:** $75-190/day\n\n**Mid-Range ($2,000-5,000 per person):**\n- **Accommodation:** $80-200/night\n- **Food:** $30-80/day\n- **Activities:** $50-150/day\n- **Transportation:** $30-80/day\n- **Total:** $190-510/day\n\n**Luxury ($5,000+ per person):**\n- **Accommodation:** $200-500+/night\n- **Food:** $80-200+/day\n- **Activities:** $150-500+/day\n- **Transportation:** $80-200+/day\n- **Total:** $510-1,400+/day\n",
    "\n### Money-Saving Tips\n1. **Travel off-season** for better prices\n2. **Book flights early** (3-6 months ahead)\n3. **Use budget airlines** and alternative airports\n4. **Stay in hostels** or vacation rentals\n5. **Eat local food** instead of tourist restaurants\n6. **Use public transportation** when possible\n7. **Book activities in advance** for discounts\n8. **Travel with a group** to split costs\n",
    "\n## 📅 Trip Planning Timeline\n\n### Pre-Trip Planning (3-6 months)\n1. **Research destinations** and create shortlist\n2. **Check visa requirements** and travel restrictions\n3. **Book flights** for best prices\n4. **Reserve accommodations** for popular destinations\n5. **Plan major activities** and book in advance\n6. **Get travel insurance** and necessary vaccinations\n7. **Research local customs** and cultural etiquette\n\n### Last-Minute Planning (1-2 weeks)\n1. **Confirm all bookings** and reservations\n2. **Pack appropriately** for destination and activities\n3. **Download offline maps** and translation apps\n4. **Notify bank** of travel plans\n5. **Make copies** of important documents\n6. **Check weather** and pack accordingly\n7. **Plan airport transfers** and transportation\n",
    "\n## 🎯 Experience Curation\n\n### Must-Have Experiences by Destination Type\n**Beach Destinations:**\n- Snorkeling or diving\n- Sunset beach walks\n- Local seafood dining\n- Water sports activities\n- Island hopping tours\n\n**City Destinations:**\n- Walking tours of historic districts\n- Local food markets and street food\n- Museum and cultural site visits\n- Nightlife and entertainment\n- Shopping in local markets\n\n**Mountain Destinations:**\n- Hiking and trekking\n- Scenic drives and viewpoints\n- Wildlife watching\n- Local village visits\n- Adventure sports (skiing, climbing)\n",
    "\n**Cultural Destinations:**\n- Historical site visits\n- Local festival attendance\n- Traditional cooking classes\n- Cultural performance shows\n- Local artisan workshops\n\n**Adventure Destinations:**\n- Outdoor adventure activities\n- Wildlife safaris\n- Extreme sports\n- Remote area exploration\n- Cultural immersion experiences\n",
    "\n## 🚀 Action Plan\n1. **Define your travel goals** and preferences\n2. **Research potential destinations** thoroughly\n3. **Set realistic budget** and timeline\n4. **Book major components** early for best prices\n5. **Plan detailed itinerary** with flexibility\n6. **Prepare for cultural differences** and language barriers\n7. **Pack smart** and travel light\n8. **Stay open to unexpected experiences** and changes\n",
    "\n## 💡 Pro Tips\n- **Be flexible** with dates for better prices\n- **Research local customs** and respect cultural differences\n- **Learn basic phrases** in local language\n- **Stay connected** with family/friends back home\n- **Keep emergency contacts** and important documents safe\n- **Travel light** - you'll thank yourself later\n- **Try local food** - it's part of the experience\n- **Take photos** but also live in the moment\n- **Be respectful** of local people and environment\n- **Have backup plans** for weather or other issues\n- **Travel insurance** is worth the investment\n- **Keep a travel journal** to remember your experiences\n"
  ]

/-! ## Default substitution for omitted optional parameters

FastMCP binds each optional parameter's declared default when the argument
is omitted from the call.  The `*_call` wrappers model an invocation in
which each optional parameter is either supplied (`some v`) or omitted
(`none`). -/

def crypto_intelligence_call (crypto_name : String) (analysis_type : Option String)
    (date : String) : String :=
  crypto_intelligence crypto_name (analysis_type.getD "trend") date

def startup_builder_call (business_idea : String) (target_market investment_needed : Option String)
    (date : String) : String :=
  startup_builder business_idea (target_market.getD "General") (investment_needed.getD "medium") date

def content_monetization_call (content_type : String) (platform audience_size : Option String)
    (date : String) : String :=
  content_monetization content_type (platform.getD "youtube") (audience_size.getD "medium") date

def fashion_predictor_call (style_preference : String) (occasion season : Option String)
    (date : String) : String :=
  fashion_predictor style_preference (occasion.getD "casual") (season.getD "summer") date

def food_innovator_call (cuisine_type : String) (dietary_restrictions skill_level : Option String)
    (date : String) : String :=
  food_innovator cuisine_type (dietary_restrictions.getD "none") (skill_level.getD "intermediate") date

def nft_creator_call (art_style : String) (theme rarity_level : Option String)
    (date : String) : String :=
  nft_creator art_style (theme.getD "cyberpunk") (rarity_level.getD "rare") date

def social_media_trend_predictor_call (platform : String) (content_type niche : Option String)
    (date : String) : String :=
  social_media_trend_predictor platform (content_type.getD "video") (niche.getD "lifestyle") date

def influencer_matcher_call (influencer_type : String) (niche platform : Option String)
    (date : String) : String :=
  influencer_matcher influencer_type (niche.getD "lifestyle") (platform.getD "instagram") date

def dating_optimizer_call (dating_platform : String) (age_range relationship_goal : Option String)
    (date : String) : String :=
  dating_optimizer dating_platform (age_range.getD "26-35") (relationship_goal.getD "serious") date

def travel_curator_call (destination_type : String) (budget_range travel_style : Option String)
    (date : String) : String :=
  travel_curator destination_type (budget_range.getD "mid-range") (travel_style.getD "couple") date

/-! ## Claims -/

/-- C1: the auth gate authorizes a presented bearer token exactly when it is
string-equal (case-sensitive, no trimming, empty string allowed) to the
configured secret; on equality it returns an access token with the fixed
client id `puch-client`, the all-access scope list `["*"]` and no expiry,
and on any other string it returns `none`. -/
theorem auth_authorizes_iff_exact_token (cfg : Config) (s : String) :
    ((load_access_token cfg s).isSome ↔ s = cfg.auth_token) ∧
    (s = cfg.auth_token →
      load_access_token cfg s = some ⟨s, "puch-client", ["*"], none⟩) ∧
    (s ≠ cfg.auth_token → load_access_token cfg s = none) := by
  unfold load_access_token
  refine ⟨⟨fun h => ?_, fun h => ?_⟩, fun h => ?_, fun h => ?_⟩
  · by_contra hne
    rw [if_neg hne] at h
    simp at h
  · rw [if_pos h]
    rfl
  · rw [if_pos h]
  · rw [if_neg h]

/-- Witness for C1 at a concrete configuration: the exact secret is
authorized with the fixed metadata, and a case-variant of it is denied. -/
theorem auth_authorizes_iff_exact_token_witness :
    load_access_token ⟨"s3cret", "919876543210"⟩ "s3cret" =
      some ⟨"s3cret", "puch-client", ["*"], none⟩ ∧
    load_access_token ⟨"s3cret", "919876543210"⟩ "S3cret" = none :=
  ⟨(auth_authorizes_iff_exact_token ⟨"s3cret", "919876543210"⟩ "s3cret").2.1 rfl,
   (auth_authorizes_iff_exact_token ⟨"s3cret", "919876543210"⟩ "S3cret").2.2 (by decide)⟩

/-- C2: the zero-argument `validate` tool returns the fixed configured
identity string (`MY_NUMBER`) verbatim; since it is a function of the
immutable configuration only, every call in the same process lifetime
returns the identical string. -/
theorem validate_returns_identity (cfg : Config) :
    validate cfg = cfg.my_number :=
  rfl

/-- C3: for each of the ten report tools, omitting every optional
parameter produces exactly the same output as explicitly passing each
optional parameter's documented default, on the same calendar date. -/
theorem defaults_substitution_equiv :
    (∀ n d, crypto_intelligence_call n none d =
      crypto_intelligence_call n (some "trend") d) ∧
    (∀ i d, startup_builder_call i none none d =
      startup_builder_call i (some "General") (some "medium") d) ∧
    (∀ c d, content_monetization_call c none none d =
      content_monetization_call c (some "youtube") (some "medium") d) ∧
    (∀ s d, fashion_predictor_call s none none d =
      fashion_predictor_call s (some "casual") (some "summer") d) ∧
    (∀ c d, food_innovator_call c none none d =
      food_innovator_call c (some "none") (some "intermediate") d) ∧
    (∀ a d, nft_creator_call a none none d =
      nft_creator_call a (some "cyberpunk") (some "rare") d) ∧
    (∀ p d, social_media_trend_predictor_call p none none d =
      social_media_trend_predictor_call p (some "video") (some "lifestyle") d) ∧
    (∀ i d, influencer_matcher_call i none none d =
      influencer_matcher_call i (some "lifestyle") (some "instagram") d) ∧
    (∀ p d, dating_optimizer_call p none none d =
      dating_optimizer_call p (some "26-35") (some "serious") d) ∧
    (∀ t d, travel_curator_call t none none d =
      travel_curator_call t (some "mid-range") (some "couple") d) :=
  ⟨fun _ _ => rfl, fun _ _ => rfl, fun _ _ => rfl, fun _ _ => rfl, fun _ _ => rfl,
   fun _ _ => rfl, fun _ _ => rfl, fun _ _ => rfl, fun _ _ => rfl, fun _ _ => rfl⟩

/-- C4: every report tool is deterministic given its string arguments and
the calendar date (the only non-parameter input): two invocations with
identical arguments evaluated on the same date yield identical output. -/
theorem same_day_determinism :
    (∀ n a d₁ d₂, d₁ = d₂ → crypto_intelligence n a d₁ = crypto_intelligence n a d₂) ∧
    (∀ i t v d₁ d₂, d₁ = d₂ → startup_builder i t v d₁ = startup_builder i t v d₂) ∧
    (∀ c p a d₁ d₂, d₁ = d₂ → content_monetization c p a d₁ = content_monetization c p a d₂) ∧
    (∀ s o e d₁ d₂, d₁ = d₂ → fashion_predictor s o e d₁ = fashion_predictor s o e d₂) ∧
    (∀ c r k d₁ d₂, d₁ = d₂ → food_innovator c r k d₁ = food_innovator c r k d₂) ∧
    (∀ a t r d₁ d₂, d₁ = d₂ → nft_creator a t r d₁ = nft_creator a t r d₂) ∧
    (∀ p c n d₁ d₂, d₁ = d₂ →
      social_media_trend_predictor p c n d₁ = social_media_trend_predictor p c n d₂) ∧
    (∀ i n p d₁ d₂, d₁ = d₂ → influencer_matcher i n p d₁ = influencer_matcher i n p d₂) ∧
    (∀ p a g d₁ d₂, d₁ = d₂ → dating_optimizer p a g d₁ = dating_optimizer p a g d₂) ∧
    (∀ t b s d₁ d₂, d₁ = d₂ → travel_curator t b s d₁ = travel_curator t b s d₂) :=
  ⟨fun _ _ _ _ h => by rw [h], fun _ _ _ _ _ h => by rw [h], fun _ _ _ _ _ h => by rw [h],
   fun _ _ _ _ _ h => by rw [h], fun _ _ _ _ _ h => by rw [h], fun _ _ _ _ _ h => by rw [h],
   fun _ _ _ _ _ h => by rw [h], fun _ _ _ _ _ h => by rw [h], fun _ _ _ _ _ h => by rw [h],
   fun _ _ _ _ _ h => by rw [h]⟩

/-- Witness for C4: each determinism conjunct applied at concrete
arguments and a concrete repeated date. -/
theorem same_day_determinism_witness :
    crypto_intelligence "Bitcoin" "trend" "August 10, 2025" =
      crypto_intelligence "Bitcoin" "trend" "August 10, 2025" ∧
    startup_builder "AI tutor" "General" "medium" "August 10, 2025" =
      startup_builder "AI tutor" "General" "medium" "August 10, 2025" ∧
    content_monetization "video" "youtube" "medium" "August 10, 2025" =
      content_monetization "video" "youtube" "medium" "August 10, 2025" ∧
    fashion_predictor "casual" "casual" "summer" "August 10, 2025" =
      fashion_predictor "casual" "casual" "summer" "August 10, 2025" ∧
    food_innovator "italian" "none" "intermediate" "August 10, 2025" =
      food_innovator "italian" "none" "intermediate" "August 10, 2025" ∧
    nft_creator "digital" "cyberpunk" "rare" "August 10, 2025" =
      nft_creator "digital" "cyberpunk" "rare" "August 10, 2025" ∧
    social_media_trend_predictor "tiktok" "video" "lifestyle" "August 10, 2025" =
      social_media_trend_predictor "tiktok" "video" "lifestyle" "August 10, 2025" ∧
    influencer_matcher "micro" "lifestyle" "instagram" "August 10, 2025" =
      influencer_matcher "micro" "lifestyle" "instagram" "August 10, 2025" ∧
    dating_optimizer "tinder" "26-35" "serious" "August 10, 2025" =
      dating_optimizer "tinder" "26-35" "serious" "August 10, 2025" ∧
    travel_curator "beach" "mid-range" "couple" "August 10, 2025" =
      travel_curator "beach" "mid-range" "couple" "August 10, 2025" :=
  ⟨same_day_determinism.1 "Bitcoin" "trend" _ _ rfl,
   same_day_determinism.2.1 "AI tutor" "General" "medium" _ _ rfl,
   same_day_determinism.2.2.1 "video" "youtube" "medium" _ _ rfl,
   same_day_determinism.2.2.2.1 "casual" "casual" "summer" _ _ rfl,
   same_day_determinism.2.2.2.2.1 "italian" "none" "intermediate" _ _ rfl,
   same_day_determinism.2.2.2.2.2.1 "digital" "cyberpunk" "rare" _ _ rfl,
   same_day_determinism.2.2.2.2.2.2.1 "tiktok" "video" "lifestyle" _ _ rfl,
   same_day_determinism.2.2.2.2.2.2.2.1 "micro" "lifestyle" "instagram" _ _ rfl,
   same_day_determinism.2.2.2.2.2.2.2.2.1 "tinder" "26-35" "serious" _ _ rfl,
   same_day_determinism.2.2.2.2.2.2.2.2.2 "beach" "mid-range" "couple" _ _ rfl⟩

/-- C5: `crypto_intelligence` on "Bitcoin" reports Bullish sentiment and the
"15-25% annually" ROI line; on "Dogecoin" it reports Neutral sentiment and
the "20-40% annually" ROI line, for every analysis type and date. -/
theorem crypto_bitcoin_dogecoin_examples :
    (∀ a d, strContains (crypto_intelligence "Bitcoin" a d)
      "- **Current Sentiment:** Bullish") ∧
    (∀ a d, strContains (crypto_intelligence "Bitcoin" a d)
      "- **Potential ROI:** 15-25% annually") ∧
    (∀ a d, strContains (crypto_intelligence "Dogecoin" a d)
      "- **Current Sentiment:** Neutral") ∧
    (∀ a d, strContains (crypto_intelligence "Dogecoin" a d)
      "- **Potential ROI:** 20-40% annually") := by
  refine ⟨fun a d => ?_, fun a d => ?_, fun a d => ?_, fun a d => ?_⟩
  · unfold crypto_intelligence
    apply strContains_of_mem (s := "- **Current Sentiment:** " ++ cryptoSentiment "Bitcoin")
    · simp
    · have h : cryptoSentiment "Bitcoin" = "Bullish" := by decide
      rw [h]
      decide
  · unfold crypto_intelligence
    apply strContains_of_mem (s := "- **Potential ROI:** " ++ cryptoRoi "Bitcoin")
    · simp
    · have h : cryptoRoi "Bitcoin" = "15-25% annually" := by decide
      rw [h]
      decide
  · unfold crypto_intelligence
    apply strContains_of_mem (s := "- **Current Sentiment:** " ++ cryptoSentiment "Dogecoin")
    · simp
    · have h : cryptoSentiment "Dogecoin" = "Neutral" := by decide
      rw [h]
      decide
  · unfold crypto_intelligence
    apply strContains_of_mem (s := "- **Potential ROI:** " ++ cryptoRoi "Dogecoin")
    · simp
    · have h : cryptoRoi "Dogecoin" = "20-40% annually" := by decide
      rw [h]
      decide

/-- C6: in `social_media_trend_predictor`, the best-posting-times line reads
"7-9 PM" for platform "tiktok" and "12-3 PM" for platform "instagram",
for every content type, niche and date. -/
theorem social_posting_time_examples :
    (∀ c n d, strContains (social_media_trend_predictor "tiktok" c n d)
      "- **Best Posting Times:** 7-9 PM") ∧
    (∀ c n d, strContains (social_media_trend_predictor "instagram" c n d)
      "- **Best Posting Times:** 12-3 PM") := by
  refine ⟨fun c n d => ?_, fun c n d => ?_⟩
  · unfold social_media_trend_predictor
    apply strContains_of_mem (s := "- **Best Posting Times:** " ++ socialTimes "tiktok")
    · simp
    · have h : socialTimes "tiktok" = "7-9 PM" := by decide
      rw [h]
      decide
  · unfold social_media_trend_predictor
    apply strContains_of_mem (s := "- **Best Posting Times:** " ++ socialTimes "instagram")
    · simp
    · have h : socialTimes "instagram" = "12-3 PM" := by decide
      rw [h]
      decide

/-- C7: an unrecognized value for an enumerated option parameter never
causes an error: every exact-match conditional keyed on an enumerated
option set falls through to its final default branch and the report is
still rendered.  Covered are all fourteen such conditionals of the source:
the three platform branches and six audience-size branches of
`content_monetization`, the three platform branches of
`social_media_trend_predictor`, the investment-level branch of
`startup_builder` and the influencer-type branch of `influencer_matcher`;
in addition, every one of the ten operations still returns a rendered
report (its header is present) for arbitrary, hence arbitrarily
unrecognized, option values. -/
theorem unrecognized_option_fallback :
    (∀ c p a d, p ≠ "youtube" → p ≠ "instagram" → p ≠ "tiktok" →
      strContains (content_monetization c p a d) "- **Best posting times:** 9-11 AM" ∧
      strContains (content_monetization c p a d) "- **Optimal content length:** 1500-2500 words" ∧
      strContains (content_monetization c p a d)
        "- **Engagement tactics:** Comments, social sharing") ∧
    (∀ c p a d, a ≠ "small" → a ≠ "medium" →
      strContains (content_monetization c p a d) "- **Ad Revenue:** $10K-50K" ∧
      strContains (content_monetization c p a d) "- **Sponsorships:** $20K-100K" ∧
      strContains (content_monetization c p a d) "- **Affiliate Marketing:** $5K-25K" ∧
      strContains (content_monetization c p a d) "- **Current:** $10K-50K" ∧
      strContains (content_monetization c p a d) "- **6 months:** $30K-150K" ∧
      strContains (content_monetization c p a d) "- **12 months:** $80K-300K") ∧
    (∀ p c n d, p ≠ "tiktok" → p ≠ "instagram" → p ≠ "youtube" →
      strContains (social_media_trend_predictor p c n d) "- **Best Posting Times:** 9-11 AM" ∧
      strContains (social_media_trend_predictor p c n d)
        "- **Optimal Frequency:** 3-5 times daily" ∧
      strContains (social_media_trend_predictor p c n d)
        "- **Engagement Windows:** First 30 minutes crucial") ∧
    (∀ i t v d, v ≠ "low" → v ≠ "medium" →
      strContains (startup_builder i t v d) "- **Seed Round:** $1M-2M") ∧
    (∀ i n p d, i ≠ "micro" → i ≠ "macro" →
      strContains (influencer_matcher i n p d) "**Base Rate:** $10,000-50,000") ∧
    (∀ n a d, strContains (crypto_intelligence n a d) "# Crypto Intelligence Analysis: ") ∧
    (∀ i t v d, strContains (startup_builder i t v d) "# Startup Validation & Roadmap: ") ∧
    (∀ c p a d, strContains (content_monetization c p a d) "# Content Monetization Strategy: ") ∧
    (∀ s o e d, strContains (fashion_predictor s o e d)
      "# Fashion Trend Predictor & Style Guide") ∧
    (∀ c r k d, strContains (food_innovator c r k d) "# Food Innovation & Recipe Creator") ∧
    (∀ a t r d, strContains (nft_creator a t r d) "# NFT Creator & Digital Art Trend Predictor") ∧
    (∀ p c n d, strContains (social_media_trend_predictor p c n d)
      "# Social Media Trend Predictor: ") ∧
    (∀ i n p d, strContains (influencer_matcher i n p d)
      "# Influencer & Brand Collaboration Matcher") ∧
    (∀ p a g d, strContains (dating_optimizer p a g d)
      "# Dating Profile Optimizer & Compatibility Predictor") ∧
    (∀ t b s d, strContains (travel_curator t b s d)
      "# Travel Experience Curator & Destination Predictor") := by
  refine ⟨fun c p a d h₁ h₂ h₃ => ⟨?_, ?_, ?_⟩, fun c p a d h₁ h₂ => ⟨?_, ?_, ?_, ?_, ?_, ?_⟩,
    fun p c n d h₁ h₂ h₃ => ⟨?_, ?_, ?_⟩, fun i t v d h₁ h₂ => ?_, fun i n p d h₁ h₂ => ?_,
    fun n a d => ?_, fun i t v d => ?_, fun c p a d => ?_, fun s o e d => ?_, fun c r k d => ?_,
    fun a t r d => ?_, fun p c n d => ?_, fun i n p d => ?_, fun p a g d => ?_,
    fun t b s d => ?_⟩
  · unfold content_monetization
    apply strContains_of_mem (s := "- **Best posting times:** " ++ contentTimes p)
    · simp
    · have h : contentTimes p = "9-11 AM" := by
        unfold contentTimes
        rw [if_neg h₁, if_neg h₂, if_neg h₃]
      rw [h]
      decide
  · unfold content_monetization
    apply strContains_of_mem (s := "- **Optimal content length:** " ++ contentLength p)
    · simp
    · have h : contentLength p = "1500-2500 words" := by
        unfold contentLength
        rw [if_neg h₁, if_neg h₂, if_neg h₃]
      rw [h]
      decide
  · unfold content_monetization
    apply strContains_of_mem (s := "- **Engagement tactics:** " ++ contentEngagement p)
    · simp
    · have h : contentEngagement p = "Comments, social sharing" := by
        unfold contentEngagement
        rw [if_neg h₁, if_neg h₂, if_neg h₃]
      rw [h]
      decide
  · unfold content_monetization
    apply strContains_of_mem (s := "- **Ad Revenue:** $" ++ contentAdRevenue a)
    · simp
    · have h : contentAdRevenue a = "10K-50K" := by
        unfold contentAdRevenue
        rw [if_neg h₁, if_neg h₂]
      rw [h]
      decide
  · unfold content_monetization
    apply strContains_of_mem (s := "- **Sponsorships:** $" ++ contentSponsorships a)
    · simp
    · have h : contentSponsorships a = "20K-100K" := by
        unfold contentSponsorships
        rw [if_neg h₁, if_neg h₂]
      rw [h]
      decide
  · unfold content_monetization
    apply strContains_of_mem (s := "- **Affiliate Marketing:** $" ++ contentAffiliate a)
    · simp
    · have h : contentAffiliate a = "5K-25K" := by
        unfold contentAffiliate
        rw [if_neg h₁, if_neg h₂]
      rw [h]
      decide
  · unfold content_monetization
    apply strContains_of_mem (s := "- **Current:** $" ++ contentCurrentRevenue a)
    · simp
    · have h : contentCurrentRevenue a = "10K-50K" := by
        unfold contentCurrentRevenue
        rw [if_neg h₁, if_neg h₂]
      rw [h]
      decide
  · unfold content_monetization
    apply strContains_of_mem (s := "- **6 months:** $" ++ contentSixMonths a)
    · simp
    · have h : contentSixMonths a = "30K-150K" := by
        unfold contentSixMonths
        rw [if_neg h₁, if_neg h₂]
      rw [h]
      decide
  · unfold content_monetization
    apply strContains_of_mem (s := "- **12 months:** $" ++ contentTwelveMonths a)
    · simp
    · have h : contentTwelveMonths a = "80K-300K" := by
        unfold contentTwelveMonths
        rw [if_neg h₁, if_neg h₂]
      rw [h]
      decide
  · unfold social_media_trend_predictor
    apply strContains_of_mem (s := "- **Best Posting Times:** " ++ socialTimes p)
    · simp
    · have h : socialTimes p = "9-11 AM" := by
        unfold socialTimes
        rw [if_neg h₁, if_neg h₂, if_neg h₃]
      rw [h]
      decide
  · unfold social_media_trend_predictor
    apply strContains_of_mem (s := "- **Optimal Frequency:** " ++ socialFreq p)
    · simp
    · have h : socialFreq p = "3-5 times daily" := by
        unfold socialFreq
        rw [if_neg h₁, if_neg h₂, if_neg h₃]
      rw [h]
      decide
  · unfold social_media_trend_predictor
    apply strContains_of_mem (s := "- **Engagement Windows:** " ++ socialWindows p)
    · simp
    · have h : socialWindows p = "First 30 minutes crucial" := by
        unfold socialWindows
        rw [if_neg h₁, if_neg h₂, if_neg h₃]
      rw [h]
      decide
  · unfold startup_builder
    apply strContains_of_mem (s := "- **Seed Round:** $" ++ startupSeed v)
    · simp
    · have h : startupSeed v = "1M-2M" := by
        unfold startupSeed
        rw [if_neg h₁, if_neg h₂]
      rw [h]
      decide
  · unfold influencer_matcher
    apply strContains_of_mem (s := "**Base Rate:** $" ++ influencerBaseRate i)
    · simp
    · have h : influencerBaseRate i = "10,000-50,000" := by
        unfold influencerBaseRate
        rw [if_neg h₁, if_neg h₂]
      rw [h]
      decide
  · unfold crypto_intelligence
    apply strContains_of_mem (s := "\n# Crypto Intelligence Analysis: ")
    · simp
    · decide
  · unfold startup_builder
    apply strContains_of_mem (s := "\n# Startup Validation & Roadmap: ")
    · simp
    · decide
  · unfold content_monetization
    apply strContains_of_mem (s := "\n# Content Monetization Strategy: ")
    · simp
    · decide
  · unfold fashion_predictor
    apply strContains_of_mem
      (s := "\n# Fashion Trend Predictor & Style Guide\n\n## 👗 Style Analysis\n**Your Preference:** ")
    · simp
    · decide
  · unfold food_innovator
    apply strContains_of_mem
      (s := "\n# Food Innovation & Recipe Creator\n\n## 🍽️ Culinary Analysis\n**Cuisine Type:** ")
    · simp
    · decide
  · unfold nft_creator
    apply strContains_of_mem
      (s := "\n# NFT Creator & Digital Art Trend Predictor\n\n## 🎨 NFT Analysis\n**Art Style:** ")
    · simp
    · decide
  · unfold social_media_trend_predictor
    apply strContains_of_mem (s := "\n# Social Media Trend Predictor: " ++ pyCapitalize p)
    · simp
    · apply strContains_append_left
      decide
  · unfold influencer_matcher
    apply strContains_of_mem
      (s := "\n# Influencer & Brand Collaboration Matcher\n\n## 👥 Influencer Analysis\n**Type:** ")
    · simp
    · decide
  · unfold dating_optimizer
    apply strContains_of_mem
      (s := "\n# Dating Profile Optimizer & Compatibility Predictor\n\n## 💕 Dating Analysis\n**Platform:** ")
    · simp
    · decide
  · unfold travel_curator
    apply strContains_of_mem
      (s := "\n# Travel Experience Curator & Destination Predictor\n\n## ✈️ Travel Analysis\n**Destination Type:** ")
    · simp
    · decide

/-- Witness for C7: concrete unrecognized option values ("facebook",
"huge", "enormous", "nano") hit the fallback branch of every one of the
fourteen enumerated-option conditionals and the reports still render. -/
theorem unrecognized_option_fallback_witness :
    (strContains (content_monetization "video" "facebook" "medium" "August 10, 2025")
      "- **Best posting times:** 9-11 AM" ∧
     strContains (content_monetization "video" "facebook" "medium" "August 10, 2025")
      "- **Optimal content length:** 1500-2500 words" ∧
     strContains (content_monetization "video" "facebook" "medium" "August 10, 2025")
      "- **Engagement tactics:** Comments, social sharing") ∧
    (strContains (content_monetization "video" "youtube" "huge" "August 10, 2025")
      "- **Ad Revenue:** $10K-50K" ∧
     strContains (content_monetization "video" "youtube" "huge" "August 10, 2025")
      "- **Sponsorships:** $20K-100K" ∧
     strContains (content_monetization "video" "youtube" "huge" "August 10, 2025")
      "- **Affiliate Marketing:** $5K-25K" ∧
     strContains (content_monetization "video" "youtube" "huge" "August 10, 2025")
      "- **Current:** $10K-50K" ∧
     strContains (content_monetization "video" "youtube" "huge" "August 10, 2025")
      "- **6 months:** $30K-150K" ∧
     strContains (content_monetization "video" "youtube" "huge" "August 10, 2025")
      "- **12 months:** $80K-300K") ∧
    (strContains (social_media_trend_predictor "facebook" "video" "lifestyle" "August 10, 2025")
      "- **Best Posting Times:** 9-11 AM" ∧
     strContains (social_media_trend_predictor "facebook" "video" "lifestyle" "August 10, 2025")
      "- **Optimal Frequency:** 3-5 times daily" ∧
     strContains (social_media_trend_predictor "facebook" "video" "lifestyle" "August 10, 2025")
      "- **Engagement Windows:** First 30 minutes crucial") ∧
    strContains (startup_builder "AI tutor" "General" "enormous" "August 10, 2025")
      "- **Seed Round:** $1M-2M" ∧
    strContains (influencer_matcher "nano" "lifestyle" "instagram" "August 10, 2025")
      "**Base Rate:** $10,000-50,000" :=
  ⟨unrecognized_option_fallback.1 "video" "facebook" "medium" "August 10, 2025"
      (by decide) (by decide) (by decide),
   unrecognized_option_fallback.2.1 "video" "youtube" "huge" "August 10, 2025"
      (by decide) (by decide),
   unrecognized_option_fallback.2.2.1 "facebook" "video" "lifestyle" "August 10, 2025"
      (by decide) (by decide) (by decide),
   unrecognized_option_fallback.2.2.2.1 "AI tutor" "General" "enormous" "August 10, 2025"
      (by decide) (by decide),
   unrecognized_option_fallback.2.2.2.2.1 "nano" "lifestyle" "instagram" "August 10, 2025"
      (by decide) (by decide)⟩

/-- C8: rendering never fails partway: for every assignment of arbitrary
strings to all parameters, each of the ten report tools returns the full
report text, witnessed here by the report always containing both its
opening header and its final line. -/
theorem rendering_total :
    (∀ n a d, strContains (crypto_intelligence n a d) "\n# Crypto Intelligence Analysis: " ∧
      strContains (crypto_intelligence n a d)
        "- Always do your own research before investing\n") ∧
    (∀ i t v d, strContains (startup_builder i t v d) "\n# Startup Validation & Roadmap: " ∧
      strContains (startup_builder i t v d) "- **Network with other entrepreneurs**\n") ∧
    (∀ c p a d, strContains (content_monetization c p a d)
        "\n# Content Monetization Strategy: " ∧
      strContains (content_monetization c p a d) "- **Stay consistent and patient**\n") ∧
    (∀ s o e d, strContains (fashion_predictor s o e d)
        "\n# Fashion Trend Predictor & Style Guide\n" ∧
      strContains (fashion_predictor s o e d)
        "- **Pinterest:** Create mood boards for inspiration\n") ∧
    (∀ c r k d, strContains (food_innovator c r k d)
        "\n# Food Innovation & Recipe Creator\n" ∧
      strContains (food_innovator c r k d)
        "- **Garnish Thoughtfully:** Edible flowers, microgreens, herbs\n") ∧
    (∀ a t r d, strContains (nft_creator a t r d)
        "\n# NFT Creator & Digital Art Trend Predictor\n" ∧
      strContains (nft_creator a t r d) "- **Stay updated** - NFT space evolves rapidly\n") ∧
    (∀ p c n d, strContains (social_media_trend_predictor p c n d)
        "\n# Social Media Trend Predictor: " ∧
      strContains (social_media_trend_predictor p c n d)
        "- **Don't chase every trend** - stay relevant to your niche\n") ∧
    (∀ i n p d, strContains (influencer_matcher i n p d)
        "\n# Influencer & Brand Collaboration Matcher\n" ∧
      strContains (influencer_matcher i n p d)
        "- **Stay true to your audience** - they trust your recommendations\n") ∧
    (∀ p a g d, strContains (dating_optimizer p a g d)
        "\n# Dating Profile Optimizer & Compatibility Predictor\n" ∧
      strContains (dating_optimizer p a g d)
        "- **Keep growing** - work on yourself while looking for others\n") ∧
    (∀ t b s d, strContains (travel_curator t b s d)
        "\n# Travel Experience Curator & Destination Predictor\n" ∧
      strContains (travel_curator t b s d)
        "- **Keep a travel journal** to remember your experiences\n") := by
  refine ⟨fun n a d => ⟨?_, ?_⟩, fun i t v d => ⟨?_, ?_⟩, fun c p a d => ⟨?_, ?_⟩,
    fun s o e d => ⟨?_, ?_⟩, fun c r k d => ⟨?_, ?_⟩, fun a t r d => ⟨?_, ?_⟩,
    fun p c n d => ⟨?_, ?_⟩, fun i n p d => ⟨?_, ?_⟩, fun p a g d => ⟨?_, ?_⟩,
    fun t b s d => ⟨?_, ?_⟩⟩
  · unfold crypto_intelligence
    apply strContains_of_mem (s := "\n# Crypto Intelligence Analysis: ")
    · simp
    · decide
  · unfold crypto_intelligence
    apply strContains_of_mem
      (s := "\n## ⚠️ Risk Warnings\n- Cryptocurrency markets are highly volatile\n- Past performance doesn't guarantee future results\n- Regulatory changes can impact prices significantly\n- Always do your own research before investing\n")
    · simp
    · decide
  · unfold startup_builder
    apply strContains_of_mem (s := "\n# Startup Validation & Roadmap: ")
    · simp
    · decide
  · unfold startup_builder
    apply strContains_of_mem
      (s := "\n## 🎯 Next Steps\n1. **Validate with potential customers**\n2. **Build MVP prototype**\n3. **Secure initial funding**\n4. **Assemble core team**\n5. **Launch beta version**\n\n## 💡 Recommendations\n- **Focus on solving a real problem**\n- **Build a strong founding team**\n- **Validate early and often**\n- **Be prepared to pivot**\n- **Network with other entrepreneurs**\n")
    · simp
    · decide
  · unfold content_monetization
    apply strContains_of_mem (s := "\n# Content Monetization Strategy: ")
    · simp
    · decide
  · unfold content_monetization
    apply strContains_of_mem
      (s := "\n## 💡 Pro Tips\n- **Focus on value over views**\n- **Build authentic relationships with audience**\n- **Diversify income streams**\n- **Invest in quality over quantity**\n- **Stay consistent and patient**\n")
    · simp
    · decide
  · unfold fashion_predictor
    apply strContains_of_mem
      (s := "\n# Fashion Trend Predictor & Style Guide\n\n## 👗 Style Analysis\n**Your Preference:** ")
    · simp
    · decide
  · unfold fashion_predictor
    apply strContains_of_mem
      (s := "\n## 📱 Social Media Inspiration\n- **Instagram:** @fashionista, @styleblogger\n- **TikTok:** #fashiontrends, #styleinspo\n- **Pinterest:** Create mood boards for inspiration\n")
    · simp
    · decide
  · unfold food_innovator
    apply strContains_of_mem
      (s := "\n# Food Innovation & Recipe Creator\n\n## 🍽️ Culinary Analysis\n**Cuisine Type:** ")
    · simp
    · decide
  · unfold food_innovator
    apply strContains_of_mem
      (s := "\n## 🎨 Presentation Tips\n- **Color Contrast:** Bright vegetables, colorful garnishes\n- **Texture Variety:** Crispy, creamy, crunchy elements\n- **Height & Depth:** Layered dishes, elevated plating\n- **Garnish Thoughtfully:** Edible flowers, microgreens, herbs\n")
    · simp
    · decide
  · unfold nft_creator
    apply strContains_of_mem
      (s := "\n# NFT Creator & Digital Art Trend Predictor\n\n## 🎨 NFT Analysis\n**Art Style:** ")
    · simp
    · decide
  · unfold nft_creator
    apply strContains_of_mem
      (s := "\n## 💡 Pro Tips\n- **Quality over quantity** - focus on creating amazing art\n- **Build community first** - engaged community drives sales\n- **Tell a story** - give your NFTs meaning and context\n- **Be consistent** - regular releases maintain interest\n- **Stay authentic** - create art you're passionate about\n- **Network with other artists** - collaborations expand reach\n- **Learn from data** - analyze what sells and why\n- **Think long-term** - build sustainable business model\n- **Protect your work** - use proper licensing and contracts\n- **Stay updated** - NFT space evolves rapidly\n")
    · simp
    · decide
  · unfold social_media_trend_predictor
    apply strContains_of_mem (s := "\n# Social Media Trend Predictor: " ++ pyCapitalize p)
    · simp
    · apply strContains_append_left
      decide
  · unfold social_media_trend_predictor
    apply strContains_of_mem
      (s := "\n## 💡 Pro Tips\n- **Consistency is key** - post regularly\n- **Engage with your audience** - reply to comments\n- **Use trending sounds/music** when relevant\n- **Optimize for each platform** - don't cross-post blindly\n- **Track your analytics** and learn from data\n- **Stay true to your voice** - authenticity wins\n- **Network with other creators** - collaborations help\n- **Don't chase every trend** - stay relevant to your niche\n")
    · simp
    · decide
  · unfold influencer_matcher
    apply strContains_of_mem
      (s := "\n# Influencer & Brand Collaboration Matcher\n\n## 👥 Influencer Analysis\n**Type:** ")
    · simp
    · decide
  · unfold influencer_matcher
    apply strContains_of_mem
      (s := "\n## 💡 Pro Tips\n- **Authenticity wins** - only partner with brands you genuinely like\n- **Quality over quantity** - better to have fewer, high-quality partnerships\n- **Track everything** - measure performance and ROI\n- **Build relationships** - long-term partnerships are more valuable\n- **Stay professional** - clear communication and timely delivery\n- **Know your worth** - don't undervalue your influence\n- **Be selective** - not every brand partnership is worth it\n- **Stay true to your audience** - they trust your recommendations\n")
    · simp
    · decide
  · unfold dating_optimizer
    apply strContains_of_mem
      (s := "\n# Dating Profile Optimizer & Compatibility Predictor\n\n## 💕 Dating Analysis\n**Platform:** ")
    · simp
    · decide
  · unfold dating_optimizer
    apply strContains_of_mem
      (s := "\n## 💡 Pro Tips\n- **Be yourself** - authenticity attracts the right people\n- **Quality over quantity** - focus on meaningful connections\n- **Don't rush** - take time to get to know people\n- **Stay positive** - dating can be challenging but rewarding\n- **Learn from rejection** - it's part of the process\n- **Trust your instincts** - if something feels off, move on\n- **Have standards** - don't settle for less than you deserve\n- **Keep growing** - work on yourself while looking for others\n")
    · simp
    · decide
  · unfold travel_curator
    apply strContains_of_mem
      (s := "\n# Travel Experience Curator & Destination Predictor\n\n## ✈️ Travel Analysis\n**Destination Type:** ")
    · simp
    · decide
  · unfold travel_curator
    apply strContains_of_mem
      (s := "\n## 💡 Pro Tips\n- **Be flexible** with dates for better prices\n- **Research local customs** and respect cultural differences\n- **Learn basic phrases** in local language\n- **Stay connected** with family/friends back home\n- **Keep emergency contacts** and important documents safe\n- **Travel light** - you'll thank yourself later\n- **Try local food** - it's part of the experience\n- **Take photos** but also live in the moment\n- **Be respectful** of local people and environment\n- **Have backup plans** for weather or other issues\n- **Travel insurance** is worth the investment\n- **Keep a travel journal** to remember your experiences\n")
    · simp
    · decide

/-- C9: the exact-match branching on platform values is case-sensitive
against the lowercase literals: capitalized variants "Instagram", "TikTok"
and "YouTube" select the final fallback posting-time branch ("9-11 AM") in
both `content_monetization` and `social_media_trend_predictor`, not the
branch of the corresponding lowercase platform, even though the report
header displays the capitalized value. -/
theorem case_sensitive_platform_branching :
    (∀ c n d, strContains (social_media_trend_predictor "Instagram" c n d)
      "- **Best Posting Times:** 9-11 AM") ∧
    (∀ c n d, strContains (social_media_trend_predictor "TikTok" c n d)
      "- **Best Posting Times:** 9-11 AM") ∧
    (∀ c n d, strContains (social_media_trend_predictor "YouTube" c n d)
      "- **Best Posting Times:** 9-11 AM") ∧
    (∀ c a d, strContains (content_monetization c "Instagram" a d)
      "- **Best posting times:** 9-11 AM") ∧
    (∀ c a d, strContains (content_monetization c "TikTok" a d)
      "- **Best posting times:** 9-11 AM") ∧
    (∀ c a d, strContains (content_monetization c "YouTube" a d)
      "- **Best posting times:** 9-11 AM") ∧
    (∀ c n d, strContains (social_media_trend_predictor "Instagram" c n d)
      "**Platform:** Instagram") ∧
    socialTimes "Instagram" = "9-11 AM" ∧ socialTimes "instagram" = "12-3 PM" ∧
    contentTimes "Instagram" = "9-11 AM" ∧ contentTimes "instagram" = "12-3 PM" := by
  have hs : ∀ p, p ≠ "tiktok" → p ≠ "instagram" → p ≠ "youtube" →
      ∀ c n d, strContains (social_media_trend_predictor p c n d)
        "- **Best Posting Times:** 9-11 AM" := by
    intro p h₁ h₂ h₃ c n d
    unfold social_media_trend_predictor
    apply strContains_of_mem (s := "- **Best Posting Times:** " ++ socialTimes p)
    · simp
    · have h : socialTimes p = "9-11 AM" := by
        unfold socialTimes
        rw [if_neg h₁, if_neg h₂, if_neg h₃]
      rw [h]
      decide
  have hc : ∀ p, p ≠ "youtube" → p ≠ "instagram" → p ≠ "tiktok" →
      ∀ c a d, strContains (content_monetization c p a d)
        "- **Best posting times:** 9-11 AM" := by
    intro p h₁ h₂ h₃ c a d
    unfold content_monetization
    apply strContains_of_mem (s := "- **Best posting times:** " ++ contentTimes p)
    · simp
    · have h : contentTimes p = "9-11 AM" := by
        unfold contentTimes
        rw [if_neg h₁, if_neg h₂, if_neg h₃]
      rw [h]
      decide
  refine ⟨hs "Instagram" (by decide) (by decide) (by decide),
    hs "TikTok" (by decide) (by decide) (by decide),
    hs "YouTube" (by decide) (by decide) (by decide),
    hc "Instagram" (by decide) (by decide) (by decide),
    hc "TikTok" (by decide) (by decide) (by decide),
    hc "YouTube" (by decide) (by decide) (by decide),
    fun c n d => ?_, by decide, by decide, by decide, by decide⟩
  unfold social_media_trend_predictor
  apply strContains_of_mem
    (s := "\n\n## 📱 Platform Analysis\n" ++ ("**Platform:** " ++ pyCapitalize "Instagram"))
  · simp
  · have h : pyCapitalize "Instagram" = "Instagram" := by decide
    rw [h]
    decide

/-- C10: the substring "ethereum" influences only the sentiment line of
`crypto_intelligence`: for every crypto name whose lowercase form contains
"ethereum" but not "bitcoin", the sentiment is Bullish while every other
conditional line takes its non-bitcoin branch. -/
theorem ethereum_only_affects_sentiment (n a d : String)
    (he : strContains (pyLower n) "ethereum")
    (hb : ¬ strContains (pyLower n) "bitcoin") :
    strContains (crypto_intelligence n a d) "- **Current Sentiment:** Bullish" ∧
    strContains (crypto_intelligence n a d) "- **Market Cap Trend:** Stable growth" ∧
    strContains (crypto_intelligence n a d) "- **Trading Volume:** Moderate activity" ∧
    strContains (crypto_intelligence n a d) "- **Risk Level:** High" ∧
    strContains (crypto_intelligence n a d) "- **Potential ROI:** 20-40% annually" ∧
    strContains (crypto_intelligence n a d) "- **Market Position:** Emerging player" ∧
    strContains (crypto_intelligence n a d) "4. **Market Sentiment:** Positive" ∧
    strContains (crypto_intelligence n a d) "- **Short-term (1-3 months):** Volatile but upward" ∧
    strContains (crypto_intelligence n a d) "- **Medium-term (6-12 months):** Growth potential" ∧
    strContains (crypto_intelligence n a d) "- **Long-term (1-2 years):** Increased adoption" := by
  refine ⟨?_, ?_, ?_, ?_, ?_, ?_, ?_, ?_, ?_, ?_⟩
  · unfold crypto_intelligence
    apply strContains_of_mem (s := "- **Current Sentiment:** " ++ cryptoSentiment n)
    · simp
    · have h : cryptoSentiment n = "Bullish" := by
        unfold cryptoSentiment
        rw [if_pos (Or.inr he)]
      rw [h]
      decide
  · unfold crypto_intelligence
    apply strContains_of_mem (s := "- **Market Cap Trend:** " ++ cryptoMarketCap n)
    · simp
    · have h : cryptoMarketCap n = "Stable growth" := by
        unfold cryptoMarketCap
        rw [if_neg hb]
      rw [h]
      decide
  · unfold crypto_intelligence
    apply strContains_of_mem (s := "- **Trading Volume:** " ++ cryptoVolume n)
    · simp
    · have h : cryptoVolume n = "Moderate activity" := by
        unfold cryptoVolume
        rw [if_neg hb]
      rw [h]
      decide
  · unfold crypto_intelligence
    apply strContains_of_mem (s := "- **Risk Level:** " ++ cryptoRisk n)
    · simp
    · have h : cryptoRisk n = "High" := by
        unfold cryptoRisk
        rw [if_neg hb]
      rw [h]
      decide
  · unfold crypto_intelligence
    apply strContains_of_mem (s := "- **Potential ROI:** " ++ cryptoRoi n)
    · simp
    · have h : cryptoRoi n = "20-40% annually" := by
        unfold cryptoRoi
        rw [if_neg hb]
      rw [h]
      decide
  · unfold crypto_intelligence
    apply strContains_of_mem (s := "- **Market Position:** " ++ cryptoPosition n)
    · simp
    · have h : cryptoPosition n = "Emerging player" := by
        unfold cryptoPosition
        rw [if_neg hb]
      rw [h]
      decide
  · unfold crypto_intelligence
    apply strContains_of_mem (s := "4. **Market Sentiment:** " ++ cryptoMarketSentiment n)
    · simp
    · have h : cryptoMarketSentiment n = "Positive" := by
        unfold cryptoMarketSentiment
        rw [if_neg hb]
      rw [h]
      decide
  · unfold crypto_intelligence
    apply strContains_of_mem (s := "- **Short-term (1-3 months):** " ++ cryptoShortTerm n)
    · simp
    · have h : cryptoShortTerm n = "Volatile but upward" := by
        unfold cryptoShortTerm
        rw [if_neg hb]
      rw [h]
      decide
  · unfold crypto_intelligence
    apply strContains_of_mem (s := "- **Medium-term (6-12 months):** " ++ cryptoMediumTerm n)
    · simp
    · have h : cryptoMediumTerm n = "Growth potential" := by
        unfold cryptoMediumTerm
        rw [if_neg hb]
      rw [h]
      decide
  · unfold crypto_intelligence
    apply strContains_of_mem (s := "- **Long-term (1-2 years):** " ++ cryptoLongTerm n)
    · simp
    · have h : cryptoLongTerm n = "Increased adoption" := by
        unfold cryptoLongTerm
        rw [if_neg hb]
      rw [h]
      decide

/-- Witness for C10 at crypto name "Ethereum" (lowercase contains
"ethereum", not "bitcoin"). -/
theorem ethereum_only_affects_sentiment_witness :
    strContains (crypto_intelligence "Ethereum" "trend" "August 10, 2025")
      "- **Current Sentiment:** Bullish" ∧
    strContains (crypto_intelligence "Ethereum" "trend" "August 10, 2025")
      "- **Market Cap Trend:** Stable growth" ∧
    strContains (crypto_intelligence "Ethereum" "trend" "August 10, 2025")
      "- **Trading Volume:** Moderate activity" ∧
    strContains (crypto_intelligence "Ethereum" "trend" "August 10, 2025")
      "- **Risk Level:** High" ∧
    strContains (crypto_intelligence "Ethereum" "trend" "August 10, 2025")
      "- **Potential ROI:** 20-40% annually" ∧
    strContains (crypto_intelligence "Ethereum" "trend" "August 10, 2025")
      "- **Market Position:** Emerging player" ∧
    strContains (crypto_intelligence "Ethereum" "trend" "August 10, 2025")
      "4. **Market Sentiment:** Positive" ∧
    strContains (crypto_intelligence "Ethereum" "trend" "August 10, 2025")
      "- **Short-term (1-3 months):** Volatile but upward" ∧
    strContains (crypto_intelligence "Ethereum" "trend" "August 10, 2025")
      "- **Medium-term (6-12 months):** Growth potential" ∧
    strContains (crypto_intelligence "Ethereum" "trend" "August 10, 2025")
      "- **Long-term (1-2 years):** Increased adoption" :=
  ethereum_only_affects_sentiment "Ethereum" "trend" "August 10, 2025"
    (by decide) (by decide)
